import Mathlib

/-!
Verification of the MediCure intake pipeline (`app.py`).

The program is a Flask app with one processing route: it reads `userData`
from the request JSON, sends it to a generative-AI endpoint for cleaning,
sends the cleaned record to the same endpoint for triage, merges the two
results with a UTC timestamp, inserts the merged record into MongoDB and
returns the triage result.  We embed the route and the gateway helper as
pure Lean functions over a JSON value model; the external world (API key,
network outcomes of the two outbound calls, the `json.loads` parser applied
to the model text, and the clock) is passed in explicitly.
-/

namespace Medicure

/-- JSON values, the data model of every payload in the program.
Python `None` is `null`; objects are association lists in insertion order. -/
inductive Json where
  | null : Json
  | bool (b : Bool) : Json
  | num (n : Int) : Json
  | str (s : String) : Json
  | arr (xs : List Json) : Json
  | obj (fields : List (String × Json)) : Json

/-- Escape of one character inside a JSON string literal. -/
def escapeChar (c : Char) : String :=
  if c = '"' then "\\\"" else if c = '\\' then "\\\\" else String.singleton c

/-- Escape of a JSON string body. -/
def escape (s : String) : String :=
  String.join (s.data.map escapeChar)

mutual

/-- `json.dumps` with Python's default separators. -/
def Json.dumps : Json → String
  | .null => "null"
  | .bool true => "true"
  | .bool false => "false"
  | .num n => toString n
  | .str s => "\"" ++ escape s ++ "\""
  | .arr xs => "[" ++ dumpsList xs ++ "]"
  | .obj fs => "\x7b" ++ dumpsFields fs ++ "\x7d"

/-- Elements of a JSON array, comma-separated. -/
def dumpsList : List Json → String
  | [] => ""
  | [x] => Json.dumps x
  | x :: xs => Json.dumps x ++ ", " ++ dumpsList xs

/-- Members of a JSON object, comma-separated. -/
def dumpsFields : List (String × Json) → String
  | [] => ""
  | [(k, v)] => "\"" ++ escape k ++ "\": " ++ Json.dumps v
  | (k, v) :: fs => "\"" ++ escape k ++ "\": " ++ Json.dumps v ++ ", " ++ dumpsFields fs

end

/-- Python truthiness of a JSON value (`if not raw_data`): `None`, `False`,
`0`, `""`, `[]` and an empty object are falsy. -/
def falsyJson : Json → Bool
  | .null => true
  | .bool b => !b
  | .num n => n == 0
  | .str s => s.isEmpty
  | .arr xs => xs.isEmpty
  | .obj fs => fs.isEmpty

/-- Truthiness of `dict.get`'s result: a missing key yields `None`, falsy. -/
def falsyOpt : Option Json → Bool
  | none => true
  | some j => falsyJson j

/-- `dict.get(k)`: `None` (here `Json.null`) when the key is absent. -/
def jsonOrNull : Option Json → Json
  | none => Json.null
  | some j => j

/-- `d[k] = v` on an association-list dictionary: replace the first binding
of `k`, or append a new one. -/
def dictSet : List (String × Json) → String → Json → List (String × Json)
  | [], k, v => [(k, v)]
  | (k', v') :: rest, k, v =>
      if k' = k then (k, v) :: rest else (k', v') :: dictSet rest k v

/-- Exceptions a subscript chain can raise in Python. -/
inductive PyExc where
  | keyError : PyExc
  | indexError : PyExc
  | typeError : PyExc
deriving DecidableEq

/-- `x[k]` for a string key: `KeyError` on a dict missing the key,
`TypeError` on a list, a string or a scalar. -/
def getItemStr : Json → String → Except PyExc Json
  | .obj fs, k =>
      match List.lookup k fs with
      | some v => .ok v
      | none => .error .keyError
  | _, _ => .error .typeError

/-- `x[i]` for a non-negative integer index: `IndexError` past the end of a
list or a string, `KeyError` on a JSON-derived dict (its keys are strings),
`TypeError` on a scalar.  Indexing a string yields a one-character string. -/
def getItemIdx : Json → Nat → Except PyExc Json
  | .obj _, _ => .error .keyError
  | .arr xs, i =>
      match xs.get? i with
      | some v => .ok v
      | none => .error .indexError
  | .str s, i =>
      match s.data.get? i with
      | some c => .ok (.str (String.singleton c))
      | none => .error .indexError
  | _, _ => .error .typeError

/-- `result['candidates'][0]['content']['parts'][0]['text']`. -/
def extract_ai_text (result : Json) : Except PyExc Json := do
  let cands ← getItemStr result "candidates"
  let cand0 ← getItemIdx cands 0
  let content ← getItemStr cand0 "content"
  let parts ← getItemStr content "parts"
  let part0 ← getItemIdx parts 0
  getItemStr part0 "text"

/-- The exceptions `process_data` distinguishes: `ValueError` and
`ConnectionError` are caught with their message; everything else falls to
the generic handler. -/
inductive PyError where
  | valueError (msg : String) : PyError
  | connectionError (msg : String) : PyError
  | unexpected : PyError
deriving DecidableEq

/-- The message of a known (`ValueError`/`ConnectionError`) exception. -/
def errMsgOf : PyError → Option String
  | .valueError m => some m
  | .connectionError m => some m
  | .unexpected => none

/-- Outcome of one outbound `requests.post`: a transport-level failure
(`RequestException`), or a response with a status code and a body.  The body
is `none` when `response.json()` cannot parse it, else the parsed value. -/
inductive HttpResult where
  | transportError : HttpResult
  | ok (status : Nat) (body : Option Json) : HttpResult

/-- What one `make_gemini_api_call` invocation produced: its return value or
raised exception, and how many outbound HTTP requests it performed. -/
structure GatewayOutcome where
  result : Except PyError Json
  attempts : Nat

/-- `if not API_KEY`: the credential is configured when it is set and
non-empty. -/
def keyConfigured : Option String → Bool
  | none => false
  | some s => !s.isEmpty

/-- `response.raise_for_status()` raises exactly for 4xx and 5xx codes. -/
def isHttpErrorStatus (status : Nat) : Bool :=
  400 ≤ status && status < 600

def config_error_msg : String :=
  "Gemini API key is not configured on the server."

def network_error_msg : String :=
  "Network error while contacting Gemini API."

def parse_error_msg : String :=
  "Could not parse valid JSON from Gemini response."

def status_error_msg (status : Nat) : String :=
  "API Error: Received status code " ++ toString status

def unexpected_error_msg : String :=
  "An unexpected server error occurred."

/-- Lines 49-52 and the third handler: extract the first candidate's text
from the parsed response body and `json.loads` it.  A `KeyError` or
`IndexError` along the subscript chain, or a `JSONDecodeError` from
`json.loads`, is caught and re-raised as the parse-failure `ValueError`; a
`TypeError` (a wrong-typed value along the path, or `json.loads` applied to
a non-string) is caught by no handler and escapes as an unexpected
exception. -/
def parse_gemini_body (loads : String → Option Json) (bodyJson : Json) :
    Except PyError Json :=
  match extract_ai_text bodyJson with
  | .error .typeError => .error .unexpected
  | .error .keyError => .error (.valueError parse_error_msg)
  | .error .indexError => .error (.valueError parse_error_msg)
  | .ok (.str t) =>
      match loads t with
      | some j => .ok j
      | none => .error (.valueError parse_error_msg)
  | .ok _ => .error .unexpected

/-- What the single `requests.post` attempt comes to: a transport failure is
re-raised as a `ConnectionError` with the generic network message; a 4xx/5xx
status (`raise_for_status`) as a `ConnectionError` carrying the status code;
an unparsable body also as the generic-network `ConnectionError`, because
`response.json()` raises `requests.exceptions.JSONDecodeError`, a
`RequestException` subclass caught by the second handler (unlike the plain
`json.JSONDecodeError` that `json.loads` on the candidate text raises);
otherwise the body is parsed for the candidate text. -/
def gateway_response (loads : String → Option Json) : HttpResult → Except PyError Json
  | .transportError => .error (.connectionError network_error_msg)
  | .ok status body =>
      if isHttpErrorStatus status then
        .error (.connectionError (status_error_msg status))
      else
        match body with
        | none => .error (.connectionError network_error_msg)
        | some bodyJson => parse_gemini_body loads bodyJson

/-- `make_gemini_api_call(payload)`.  `loads` is `json.loads` applied to the
extracted candidate text (`none` = `JSONDecodeError`); `net` is the outcome
of the single `requests.post`.  Without a configured credential the function
raises before any outbound request; otherwise it performs exactly one
outbound attempt and translates its outcome. -/
def make_gemini_api_call (apiKey : Option String) (loads : String → Option Json)
    (net : HttpResult) (payload : Json) : GatewayOutcome :=
  if !(keyConfigured apiKey) then
    ⟨.error (.valueError config_error_msg), 0⟩
  else
    ⟨gateway_response loads net, 1⟩

def cleaning_system_prompt : String :=
  "You are a data cleaning and formatting expert. Your task is to take raw, conversational user input and convert it into a structured, clean JSON object.\n    - Format 'dob' and 'appointmentDate' into a strict 'dd-mm-yyyy' format. Assume the current year is 2025 if not specified.\n    - Format 'appointmentTime' into a strict 'hh:mm' 24-hour format. Interpret terms like 'morning' as 10:00, 'afternoon' as 14:00, and 'evening' as 18:00.\n    - Clean up other text fields by correcting typos and ensuring proper capitalization.\n    Your response MUST be ONLY the JSON object."

def triage_system_prompt : String :=
  "You are an expert medical triage assistant for a hospital named 'MediCure'. Your task is to analyze a patient's data and determine the most appropriate hospital department. You must also generate helpful, non-prescriptive precautions.\n    The available departments are: Cardiology, Orthopedics, Neurology, Dermatology, Gastroenterology, Pulmonology, Endocrinology, and General Physician.\n    CRITICAL SAFETY INSTRUCTION: Your generated precautions MUST ALWAYS begin with a bolded disclaimer: \"<b>Disclaimer: This is not medical advice. If your symptoms are severe or worsen, please visit the nearest emergency room immediately.</b>\"\n    Your response MUST be ONLY a valid JSON object."

/-- A string-typed property of the cleaning response schema. -/
def stringProp (name : String) : String × Json :=
  (name, .obj [("type", .str "STRING")])

/-- The payload `call_data_cleaning_ai` builds from the raw user data. -/
def call_data_cleaning_ai_payload (raw_data : Json) : Json :=
  .obj
    [ ("systemInstruction", .obj [("parts", .arr [.obj [("text", .str cleaning_system_prompt)]])]),
      ("contents", .arr [.obj [("parts", .arr [.obj [("text", .str raw_data.dumps)]])]]),
      ("generationConfig", .obj
        [ ("responseMimeType", .str "application/json"),
          ("responseSchema", .obj
            [ ("type", .str "OBJECT"),
              ("properties", .obj
                [ stringProp "name", stringProp "dob", stringProp "gender",
                  stringProp "phone", stringProp "email", stringProp "address",
                  stringProp "symptoms", stringProp "history", stringProp "medications",
                  stringProp "allergies", stringProp "conditions",
                  stringProp "appointmentDate", stringProp "appointmentTime" ]) ]) ]) ]

/-- The payload `call_triage_ai` builds from the cleaned record's fields:
only `symptoms`, `history` and `conditions` are read (`cleaned_data.get`). -/
def call_triage_ai_payload (cleaned_fields : List (String × Json)) : Json :=
  .obj
    [ ("systemInstruction", .obj [("parts", .arr [.obj [("text", .str triage_system_prompt)]])]),
      ("contents", .arr [.obj [("parts", .arr [.obj [("text", .str
        ("Patient Data: " ++ Json.dumps (.obj
          [ ("symptoms", jsonOrNull (List.lookup "symptoms" cleaned_fields)),
            ("history", jsonOrNull (List.lookup "history" cleaned_fields)),
            ("conditions", jsonOrNull (List.lookup "conditions" cleaned_fields)) ])))]])]]),
      ("generationConfig", .obj
        [ ("responseMimeType", .str "application/json"),
          ("responseSchema", .obj
            [ ("type", .str "OBJECT"),
              ("properties", .obj
                [ ("department", .obj [("type", .str "STRING")]),
                  ("precautions", .obj [("type", .str "STRING")]) ]),
              ("required", .arr [.str "department", .str "precautions"]) ]) ]) ]

/-- A naive UTC datetime as `datetime.utcnow()` returns it. -/
structure DateTime where
  year : Nat
  month : Nat
  day : Nat
  hour : Nat
  minute : Nat
  second : Nat
  microsecond : Nat
deriving DecidableEq

/-- Field bounds `datetime` enforces on construction. -/
def dtValid (d : DateTime) : Bool :=
  1 ≤ d.year && d.year ≤ 9999 && 1 ≤ d.month && d.month ≤ 12 &&
  1 ≤ d.day && d.day ≤ 31 && d.hour ≤ 23 && d.minute ≤ 59 &&
  d.second ≤ 59 && d.microsecond ≤ 999999

/-- Mixed-radix key: on valid datetimes its order is `datetime`'s
field-lexicographic order. -/
def DateTime.key (d : DateTime) : Nat :=
  ((((((d.year * 13 + d.month) * 32 + d.day) * 24 + d.hour) * 60 + d.minute)
     * 60 + d.second) * 1000000 + d.microsecond)

/-- `a <= b` on datetimes. -/
def dtLe (a b : DateTime) : Prop :=
  a.key ≤ b.key

instance (a b : DateTime) : Decidable (dtLe a b) := by
  unfold dtLe
  infer_instance

/-- The character of a decimal digit. -/
def digit (n : Nat) : Char :=
  Char.ofNat (48 + n % 10)

/-- `%02d` for a value below 100. -/
def pad2 (n : Nat) : List Char :=
  [digit (n / 10), digit n]

/-- `%04d` for a value below 10000. -/
def pad4 (n : Nat) : List Char :=
  [digit (n / 1000), digit (n / 100), digit (n / 10), digit n]

/-- `%06d` for a value below 1000000. -/
def pad6 (n : Nat) : List Char :=
  [digit (n / 100000), digit (n / 10000), digit (n / 1000), digit (n / 100),
   digit (n / 10), digit n]

/-- `datetime.isoformat()`: `YYYY-MM-DDTHH:MM:SS`, with `.ffffff` appended
exactly when the microsecond field is non-zero. -/
def DateTime.isoformatChars (d : DateTime) : List Char :=
  pad4 d.year ++ '-' :: pad2 d.month ++ '-' :: pad2 d.day ++
  'T' :: pad2 d.hour ++ ':' :: pad2 d.minute ++ ':' :: pad2 d.second ++
  (if d.microsecond == 0 then [] else '.' :: pad6 d.microsecond)

def DateTime.isoformat (d : DateTime) : String :=
  ⟨d.isoformatChars⟩

/-- Decimal value of a two-digit group. -/
def twoDigitVal (a b : Char) : Nat :=
  10 * (a.toNat - 48) + (b.toNat - 48)

/-- The 19-character ISO-8601 date-time core `YYYY-MM-DDTHH:MM:SS`, with the
field ranges checked. -/
def isIso8601Core : List Char → Bool
  | [y1, y2, y3, y4, a, m1, m2, b, d1, d2, t, h1, h2, c, n1, n2, e, s1, s2] =>
      y1.isDigit && y2.isDigit && y3.isDigit && y4.isDigit &&
      a = '-' && m1.isDigit && m2.isDigit && b = '-' &&
      d1.isDigit && d2.isDigit && t = 'T' &&
      h1.isDigit && h2.isDigit && c = ':' &&
      n1.isDigit && n2.isDigit && e = ':' &&
      s1.isDigit && s2.isDigit &&
      1 ≤ twoDigitVal m1 m2 && twoDigitVal m1 m2 ≤ 12 &&
      1 ≤ twoDigitVal d1 d2 && twoDigitVal d1 d2 ≤ 31 &&
      twoDigitVal h1 h2 ≤ 23 && twoDigitVal n1 n2 ≤ 59 && twoDigitVal s1 s2 ≤ 59
  | _ => false

/-- An ISO-8601 date-time character sequence as Python emits one: the
19-character core alone, or the core followed by a dot and six
fractional-second digits. -/
def isIso8601Chars : List Char → Bool
  | [y1, y2, y3, y4, a, m1, m2, b, d1, d2, t, h1, h2, c, n1, n2, e, s1, s2] =>
      isIso8601Core [y1, y2, y3, y4, a, m1, m2, b, d1, d2, t, h1, h2, c, n1, n2, e, s1, s2]
  | [y1, y2, y3, y4, a, m1, m2, b, d1, d2, t, h1, h2, c, n1, n2, e, s1, s2,
     dot, u1, u2, u3, u4, u5, u6] =>
      isIso8601Core [y1, y2, y3, y4, a, m1, m2, b, d1, d2, t, h1, h2, c, n1, n2, e, s1, s2] &&
      dot = '.' && u1.isDigit && u2.isDigit && u3.isDigit && u4.isDigit &&
      u5.isDigit && u6.isDigit
  | _ => false

/-- An ISO-8601 date-time string. -/
def isIso8601 (s : String) : Bool :=
  isIso8601Chars s.data

/-- The world one `/process` request runs in: the configured credential, the
`json.loads` parser, the network outcomes of the cleaning and triage calls,
and the instant `datetime.utcnow()` returns at merge time. -/
structure World where
  apiKey : Option String
  loads : String → Option Json
  cleanNet : HttpResult
  triageNet : HttpResult
  mergeTime : DateTime

/-- An HTTP response of the route: status code and JSON body. -/
structure HttpResponse where
  status : Nat
  body : Json

/-- What one `/process` request did: the response, the record handed to
`insert_one` (if reached), how many times `make_gemini_api_call` was entered
and how many outbound HTTP requests were performed. -/
structure RunResult where
  response : HttpResponse
  persisted : Option Json
  gatewayInvocations : Nat
  outboundAttempts : Nat

/-- Body of the 500 response: the exception's own message for `ValueError`
and `ConnectionError`, the generic message otherwise. -/
def errBody : PyError → Json
  | .valueError m => .obj [("error", .str m)]
  | .connectionError m => .obj [("error", .str m)]
  | .unexpected => .obj [("error", .str unexpected_error_msg)]

/-- The merged appointment record: the cleaned record with `referral` and
`bookingTimestampUTC` set on top of it. -/
def mergeRecord (cleaned_fields triage_fields : List (String × Json))
    (now : DateTime) : List (String × Json) :=
  dictSet
    (dictSet cleaned_fields "referral"
      (.obj
        [ ("assignedDepartment", jsonOrNull (List.lookup "department" triage_fields)),
          ("aiPrecautions", jsonOrNull (List.lookup "precautions" triage_fields)) ]))
    "bookingTimestampUTC" (.str now.isoformat)

/-- The `/process` route.  `reqBody` is the request's parsed JSON body; a
non-object body makes `request.json.get` raise and the generic handler
answer.  A falsy `userData` is rejected with 400 before any gateway call.
The cleaning result must be a dict for `cleaned_data.get` in the triage
payload, and the triage result must be a dict for `triage_result.get` in the
merge; otherwise the generic handler answers 500.  On full success the
merged record is inserted and the triage result is echoed with 200. -/
def process_data (w : World) (reqBody : Json) : RunResult :=
  match reqBody with
  | .obj fields =>
      match List.lookup "userData" fields with
      | none =>
          ⟨⟨400, .obj [("error", .str "No user data provided.")]⟩, none, 0, 0⟩
      | some raw_data =>
          if falsyJson raw_data then
            ⟨⟨400, .obj [("error", .str "No user data provided.")]⟩, none, 0, 0⟩
          else
            let clean := make_gemini_api_call w.apiKey w.loads w.cleanNet
              (call_data_cleaning_ai_payload raw_data)
            match clean.result with
            | .error e => ⟨⟨500, errBody e⟩, none, 1, clean.attempts⟩
            | .ok cleaned_data =>
                match cleaned_data with
                | .obj cleaned_fields =>
                    let triage := make_gemini_api_call w.apiKey w.loads w.triageNet
                      (call_triage_ai_payload cleaned_fields)
                    match triage.result with
                    | .error e =>
                        ⟨⟨500, errBody e⟩, none, 2, clean.attempts + triage.attempts⟩
                    | .ok triage_result =>
                        match triage_result with
                        | .obj triage_fields =>
                            ⟨⟨200, .obj triage_fields⟩,
                              some (.obj (mergeRecord cleaned_fields triage_fields w.mergeTime)),
                              2, clean.attempts + triage.attempts⟩
                        | _ =>
                            ⟨⟨500, errBody .unexpected⟩, none, 2,
                              clean.attempts + triage.attempts⟩
                | _ => ⟨⟨500, errBody .unexpected⟩, none, 1, clean.attempts⟩
  | _ => ⟨⟨500, errBody .unexpected⟩, none, 0, 0⟩

/-! ## Dictionary lemmas -/

theorem lookup_dictSet_self (l : List (String × Json)) (k : String) (v : Json) :
    List.lookup k (dictSet l k v) = some v := by
  induction l with
  | nil => simp [dictSet, List.lookup]
  | cons p rest ih =>
      obtain ⟨k', v'⟩ := p
      by_cases h : k' = k
      · simp [dictSet, h, List.lookup]
      · have hb : (k == k') = false := beq_eq_false_iff_ne.mpr (Ne.symm h)
        simp [dictSet, h, List.lookup, hb, ih]

theorem lookup_dictSet_ne (l : List (String × Json)) (k k' : String) (v : Json)
    (h : k' ≠ k) : List.lookup k' (dictSet l k v) = List.lookup k' l := by
  have hb : (k' == k) = false := beq_eq_false_iff_ne.mpr h
  induction l with
  | nil => simp [dictSet, List.lookup, hb]
  | cons p rest ih =>
      obtain ⟨k'', v''⟩ := p
      by_cases hk : k'' = k
      · subst hk
        simp [dictSet, List.lookup, hb]
      · simp only [dictSet, if_neg hk, List.lookup]
        cases hkk : k' == k'' <;> simp [hkk, ih]

/-! ## Timestamp format lemmas -/

theorem digit_isDigit (n : Nat) : (digit n).isDigit = true := by
  have h : n % 10 < 10 := Nat.mod_lt _ (by omega)
  unfold digit
  generalize n % 10 = k at h
  interval_cases k <;> decide

theorem digit_toNat (n : Nat) : (digit n).toNat = 48 + n % 10 := by
  have h : n % 10 < 10 := Nat.mod_lt _ (by omega)
  unfold digit
  generalize n % 10 = k at h
  interval_cases k <;> decide

/-- `datetime.isoformat()` of an in-range datetime passes the ISO-8601
checker, with or without the fractional-second part. -/
theorem isoformat_isIso8601 (d : DateTime) (h : dtValid d = true) :
    isIso8601 d.isoformat = true := by
  obtain ⟨y, mo, da, ho, mi, se, us⟩ := d
  simp only [dtValid, Bool.and_eq_true, decide_eq_true_eq] at h
  have hmo : mo / 10 % 10 = mo / 10 := by omega
  have hda : da / 10 % 10 = da / 10 := by omega
  have hho : ho / 10 % 10 = ho / 10 := by omega
  have hmi : mi / 10 % 10 = mi / 10 := by omega
  have hse : se / 10 % 10 = se / 10 := by omega
  unfold isIso8601 DateTime.isoformat DateTime.isoformatChars pad4 pad2 pad6
  by_cases hus : us = 0
  · subst hus
    simp [isIso8601Chars, isIso8601Core, digit_isDigit, twoDigitVal, digit_toNat,
      hmo, hda, hho, hmi, hse]
    omega
  · have hz : (us == 0) = false := by simp [hus]
    rw [hz]
    simp [isIso8601Chars, isIso8601Core, digit_isDigit, twoDigitVal, digit_toNat,
      hmo, hda, hho, hmi, hse]
    omega

/-! ## Claim theorems -/

/-- C2: a POST /process request whose `userData` is absent, or present but
falsy (empty or null), is answered 400 with body
`{"error": "No user data provided."}`; the gateway is never entered and no
outbound AI call is made, and nothing is persisted. -/
theorem missing_userdata_400_no_ai_calls (w : World) (fields : List (String × Json))
    (h : falsyOpt (List.lookup "userData" fields) = true) :
    process_data w (.obj fields) =
      ⟨⟨400, .obj [("error", .str "No user data provided.")]⟩, none, 0, 0⟩ := by
  cases hu : List.lookup "userData" fields with
  | none => simp [process_data, hu]
  | some raw =>
      rw [hu] at h
      simp only [falsyOpt] at h
      simp [process_data, hu, h]

/-- Witness for C2: the empty-object `userData` is falsy and rejected. -/
theorem missing_userdata_400_no_ai_calls_witness :
    falsyOpt (List.lookup "userData" [("userData", Json.obj [])]) = true
    ∧ process_data
        ⟨some "key", fun _ => none, .transportError, .transportError, ⟨2025, 1, 1, 0, 0, 0, 0⟩⟩
        (.obj [("userData", Json.obj [])]) =
      ⟨⟨400, .obj [("error", .str "No user data provided.")]⟩, none, 0, 0⟩ :=
  ⟨rfl,
    missing_userdata_400_no_ai_calls
      ⟨some "key", fun _ => none, .transportError, .transportError, ⟨2025, 1, 1, 0, 0, 0, 0⟩⟩
      [("userData", Json.obj [])] rfl⟩

/-- C7: with a credential configured, the gateway performs exactly one
outbound attempt per call whatever the network does; a transport failure
becomes an `ExternalServiceError` with the generic network message, and a
4xx/5xx response becomes an `ExternalServiceError` carrying the status
code. -/
theorem gateway_single_attempt_error_translation (apiKey : Option String)
    (loads : String → Option Json) (payload : Json)
    (h : keyConfigured apiKey = true) :
    (make_gemini_api_call apiKey loads .transportError payload =
        ⟨.error (.connectionError network_error_msg), 1⟩)
    ∧ (∀ status body, isHttpErrorStatus status = true →
        make_gemini_api_call apiKey loads (.ok status body) payload =
          ⟨.error (.connectionError (status_error_msg status)), 1⟩)
    ∧ (∀ net, (make_gemini_api_call apiKey loads net payload).attempts = 1) := by
  refine ⟨?_, ?_, ?_⟩
  · simp [make_gemini_api_call, gateway_response, h]
  · intro status body hs
    simp [make_gemini_api_call, gateway_response, h, hs]
  · intro net
    simp [make_gemini_api_call, h]

/-- Witness for C7: a 503 response and a transport failure, each one
attempt. -/
theorem gateway_single_attempt_error_translation_witness :
    (make_gemini_api_call (some "key") (fun _ => none) .transportError .null =
        ⟨.error (.connectionError network_error_msg), 1⟩)
    ∧ (make_gemini_api_call (some "key") (fun _ => none) (.ok 503 none) .null =
        ⟨.error (.connectionError (status_error_msg 503)), 1⟩) :=
  ⟨(gateway_single_attempt_error_translation (some "key") (fun _ => none) .null rfl).1,
   (gateway_single_attempt_error_translation (some "key") (fun _ => none) .null rfl).2.1
     503 none rfl⟩

/-- C8: without a configured credential the gateway raises the
`ConfigurationError` message and performs zero outbound HTTP requests. -/
theorem gateway_unconfigured_no_attempt (apiKey : Option String)
    (loads : String → Option Json) (net : HttpResult) (payload : Json)
    (h : keyConfigured apiKey = false) :
    make_gemini_api_call apiKey loads net payload =
      ⟨.error (.valueError config_error_msg), 0⟩ := by
  simp [make_gemini_api_call, h]

/-- Witness for C8: the unset key. -/
theorem gateway_unconfigured_no_attempt_witness :
    make_gemini_api_call none (fun _ => none) .transportError .null =
      ⟨.error (.valueError config_error_msg), 0⟩ :=
  gateway_unconfigured_no_attempt none (fun _ => none) .transportError .null rfl

/-- C9: the triage request payload is built from the cleaned record's
`symptoms`, `history` and `conditions` fields only: two cleaned records that
agree on those three lookups yield identical payloads. -/
theorem triage_payload_only_clinical_fields (cf cg : List (String × Json))
    (hs : List.lookup "symptoms" cf = List.lookup "symptoms" cg)
    (hh : List.lookup "history" cf = List.lookup "history" cg)
    (hc : List.lookup "conditions" cf = List.lookup "conditions" cg) :
    call_triage_ai_payload cf = call_triage_ai_payload cg := by
  unfold call_triage_ai_payload
  rw [hs, hh, hc]

/-- C1: whenever the cleaning call or the triage call raises one of the
known stage errors (`ConfigurationError` / `ExternalServiceError` /
`ResponseFormatError`, i.e. a `ValueError` or `ConnectionError` with a
message), the route answers 500 with that message as the JSON error body,
and the persistence insert is never executed. -/
theorem stage_failure_500_no_persist (w : World) (fields : List (String × Json))
    (raw : Json) (e : PyError) (m : String)
    (hu : List.lookup "userData" fields = some raw)
    (hf : falsyJson raw = false)
    (hm : errMsgOf e = some m)
    (hfail :
      (make_gemini_api_call w.apiKey w.loads w.cleanNet
          (call_data_cleaning_ai_payload raw)).result = .error e
      ∨ ∃ cf,
          (make_gemini_api_call w.apiKey w.loads w.cleanNet
              (call_data_cleaning_ai_payload raw)).result = .ok (.obj cf)
          ∧ (make_gemini_api_call w.apiKey w.loads w.triageNet
              (call_triage_ai_payload cf)).result = .error e) :
    (process_data w (.obj fields)).response.status = 500
    ∧ (process_data w (.obj fields)).response.body = .obj [("error", .str m)]
    ∧ (process_data w (.obj fields)).persisted = none := by
  have hbody : errBody e = .obj [("error", .str m)] := by
    cases e <;> simp [errMsgOf] at hm <;> simp [errBody, hm]
  rcases hfail with hclean | ⟨cf, hclean, htri⟩
  · simp [process_data, hu, hf, hclean, hbody]
  · simp [process_data, hu, hf, hclean, htri, hbody]

/-- Witness for C1: the cleaning call answers 503, so the route answers 500
with the status-code message and persists nothing. -/
theorem stage_failure_500_no_persist_witness :
    (process_data
        ⟨some "key", fun _ => none, .ok 503 none, .transportError, ⟨2025, 1, 1, 0, 0, 0, 0⟩⟩
        (.obj [("userData", .str "sore throat")])).response.status = 500
    ∧ (process_data
        ⟨some "key", fun _ => none, .ok 503 none, .transportError, ⟨2025, 1, 1, 0, 0, 0, 0⟩⟩
        (.obj [("userData", .str "sore throat")])).response.body =
      .obj [("error", .str (status_error_msg 503))]
    ∧ (process_data
        ⟨some "key", fun _ => none, .ok 503 none, .transportError, ⟨2025, 1, 1, 0, 0, 0, 0⟩⟩
        (.obj [("userData", .str "sore throat")])).persisted = none :=
  stage_failure_500_no_persist
    ⟨some "key", fun _ => none, .ok 503 none, .transportError, ⟨2025, 1, 1, 0, 0, 0, 0⟩⟩
    [("userData", .str "sore throat")] (.str "sore throat")
    (.connectionError (status_error_msg 503)) (status_error_msg 503)
    rfl rfl rfl (Or.inl rfl)

/-- C5: when the cleaning call's HTTP response has an error status, the
route answers 500 carrying the status-code message, persists nothing, enters
the gateway once only (one outbound attempt), and its outcome does not
depend on the triage network at all. -/
theorem cleaning_http_failure_skips_triage (w : World) (fields : List (String × Json))
    (raw : Json) (status : Nat) (body : Option Json)
    (hu : List.lookup "userData" fields = some raw)
    (hf : falsyJson raw = false)
    (hkey : keyConfigured w.apiKey = true)
    (hnet : w.cleanNet = .ok status body)
    (hs : isHttpErrorStatus status = true) :
    (process_data w (.obj fields)).response.status = 500
    ∧ (process_data w (.obj fields)).response.body =
        .obj [("error", .str (status_error_msg status))]
    ∧ (process_data w (.obj fields)).persisted = none
    ∧ (process_data w (.obj fields)).gatewayInvocations = 1
    ∧ (process_data w (.obj fields)).outboundAttempts = 1
    ∧ ∀ n : HttpResult,
        process_data ⟨w.apiKey, w.loads, w.cleanNet, n, w.mergeTime⟩ (.obj fields) =
          process_data w (.obj fields) := by
  have hclean : make_gemini_api_call w.apiKey w.loads w.cleanNet
      (call_data_cleaning_ai_payload raw) =
      ⟨.error (.connectionError (status_error_msg status)), 1⟩ := by
    simp [make_gemini_api_call, gateway_response, hkey, hnet, hs]
  refine ⟨?_, ?_, ?_, ?_, ?_, ?_⟩ <;>
    simp [process_data, hu, hf, hclean, errBody]

/-- Witness for C5: a 500-status cleaning response; the triage network is a
transport failure that is never consulted. -/
theorem cleaning_http_failure_skips_triage_witness :
    (process_data
        ⟨some "key", fun _ => none, .ok 500 none, .transportError, ⟨2025, 1, 1, 0, 0, 0, 0⟩⟩
        (.obj [("userData", .str "headache")])).persisted = none
    ∧ (process_data
        ⟨some "key", fun _ => none, .ok 500 none, .transportError, ⟨2025, 1, 1, 0, 0, 0, 0⟩⟩
        (.obj [("userData", .str "headache")])).gatewayInvocations = 1 :=
  ⟨(cleaning_http_failure_skips_triage
      ⟨some "key", fun _ => none, .ok 500 none, .transportError, ⟨2025, 1, 1, 0, 0, 0, 0⟩⟩
      [("userData", .str "headache")] (.str "headache") 500 none
      rfl rfl rfl rfl rfl).2.2.1,
   (cleaning_http_failure_skips_triage
      ⟨some "key", fun _ => none, .ok 500 none, .transportError, ⟨2025, 1, 1, 0, 0, 0, 0⟩⟩
      [("userData", .str "headache")] (.str "headache") 500 none
      rfl rfl rfl rfl rfl).2.2.2.1⟩

/-- C3: on a successful run the persisted record is the cleaned record with
a `referral` block equal to the triage result's `department` and
`precautions` values and a `bookingTimestampUTC` equal to the single
`utcnow` capture at merge time; every other field is the cleaned record's;
the timestamp is valid ISO-8601 and (the clock being monotone) no earlier
than the request-start instant `t0`. -/
theorem success_persists_merged_record (w : World)
    (fields cf tf : List (String × Json)) (raw : Json) (t0 : DateTime)
    (hu : List.lookup "userData" fields = some raw)
    (hf : falsyJson raw = false)
    (hclean : (make_gemini_api_call w.apiKey w.loads w.cleanNet
        (call_data_cleaning_ai_payload raw)).result = .ok (.obj cf))
    (htri : (make_gemini_api_call w.apiKey w.loads w.triageNet
        (call_triage_ai_payload cf)).result = .ok (.obj tf))
    (hvalid : dtValid w.mergeTime = true)
    (hclock : dtLe t0 w.mergeTime) :
    (process_data w (.obj fields)).persisted =
        some (.obj (mergeRecord cf tf w.mergeTime))
    ∧ List.lookup "referral" (mergeRecord cf tf w.mergeTime) =
        some (.obj
          [ ("assignedDepartment", jsonOrNull (List.lookup "department" tf)),
            ("aiPrecautions", jsonOrNull (List.lookup "precautions" tf)) ])
    ∧ List.lookup "bookingTimestampUTC" (mergeRecord cf tf w.mergeTime) =
        some (.str w.mergeTime.isoformat)
    ∧ (∀ k, k ≠ "referral" → k ≠ "bookingTimestampUTC" →
        List.lookup k (mergeRecord cf tf w.mergeTime) = List.lookup k cf)
    ∧ isIso8601 w.mergeTime.isoformat = true
    ∧ dtLe t0 w.mergeTime := by
  refine ⟨?_, ?_, ?_, ?_, isoformat_isIso8601 _ hvalid, hclock⟩
  · simp [process_data, hu, hf, hclean, htri]
  · unfold mergeRecord
    rw [lookup_dictSet_ne _ _ _ _ (by decide), lookup_dictSet_self]
  · unfold mergeRecord
    rw [lookup_dictSet_self]
  · intro k h1 h2
    unfold mergeRecord
    rw [lookup_dictSet_ne _ _ _ _ h2, lookup_dictSet_ne _ _ _ _ h1]

/-- A Gemini response body whose first candidate's text is `t`. -/
def envelope (t : String) : Json :=
  .obj [("candidates", .arr [.obj [("content",
    .obj [("parts", .arr [.obj [("text", .str t)]])])]])]

/-- A `json.loads` oracle for the concrete runs: the cleaning text parses to
a small cleaned record and the triage text to the given triage object. -/
def sampleLoads (triage : Json) : String → Option Json :=
  fun s =>
    if s = "CLEANTEXT" then
      some (.obj [("name", .str "Alice"), ("symptoms", .str "Chest pain")])
    else if s = "TRIAGETEXT" then some triage
    else none

/-- A world in which both calls succeed and the triage text parses to
`triage`. -/
def successWorld (triage : Json) : World :=
  ⟨some "key", sampleLoads triage, .ok 200 (some (envelope "CLEANTEXT")),
   .ok 200 (some (envelope "TRIAGETEXT")), ⟨2025, 10, 12, 9, 30, 0, 123456⟩⟩

/-- The request body of the concrete runs. -/
def sampleRequest : Json :=
  .obj [("userData", .obj [("symptoms", .str "chest pain")])]

/-- The triage object of the fully successful concrete run. -/
def sampleTriage : Json :=
  .obj [("department", .str "Cardiology"), ("precautions", .str "Rest")]

/-- Witness for C3: the fully successful run persists the merged record with
the Cardiology referral and the ISO timestamp. -/
theorem success_persists_merged_record_witness :
    (process_data (successWorld sampleTriage) sampleRequest).persisted =
        some (.obj (mergeRecord
          [("name", .str "Alice"), ("symptoms", .str "Chest pain")]
          [("department", .str "Cardiology"), ("precautions", .str "Rest")]
          ⟨2025, 10, 12, 9, 30, 0, 123456⟩))
    ∧ List.lookup "referral" (mergeRecord
          [("name", .str "Alice"), ("symptoms", .str "Chest pain")]
          [("department", .str "Cardiology"), ("precautions", .str "Rest")]
          ⟨2025, 10, 12, 9, 30, 0, 123456⟩) =
        some (.obj
          [ ("assignedDepartment", jsonOrNull (List.lookup "department"
              [("department", .str "Cardiology"), ("precautions", .str "Rest")])),
            ("aiPrecautions", jsonOrNull (List.lookup "precautions"
              [("department", .str "Cardiology"), ("precautions", .str "Rest")])) ]) :=
  ⟨(success_persists_merged_record (successWorld sampleTriage)
      [("userData", .obj [("symptoms", .str "chest pain")])]
      [("name", .str "Alice"), ("symptoms", .str "Chest pain")]
      [("department", .str "Cardiology"), ("precautions", .str "Rest")]
      (.obj [("symptoms", .str "chest pain")]) ⟨2025, 10, 12, 9, 0, 0, 0⟩
      rfl rfl rfl rfl rfl (by decide)).1,
   (success_persists_merged_record (successWorld sampleTriage)
      [("userData", .obj [("symptoms", .str "chest pain")])]
      [("name", .str "Alice"), ("symptoms", .str "Chest pain")]
      [("department", .str "Cardiology"), ("precautions", .str "Rest")]
      (.obj [("symptoms", .str "chest pain")]) ⟨2025, 10, 12, 9, 0, 0, 0⟩
      rfl rfl rfl rfl rfl (by decide)).2.1⟩

/-- C10: the merge is total: even when the triage object lacks `department`
or `precautions`, `dict.get` substitutes `None` and the run still succeeds
with a `referral` block carrying both keys, null-valued where missing. -/
theorem merge_total_missing_triage_keys (w : World)
    (fields cf tf : List (String × Json)) (raw : Json)
    (hu : List.lookup "userData" fields = some raw)
    (hf : falsyJson raw = false)
    (hclean : (make_gemini_api_call w.apiKey w.loads w.cleanNet
        (call_data_cleaning_ai_payload raw)).result = .ok (.obj cf))
    (htri : (make_gemini_api_call w.apiKey w.loads w.triageNet
        (call_triage_ai_payload cf)).result = .ok (.obj tf)) :
    (process_data w (.obj fields)).response.status = 200
    ∧ (process_data w (.obj fields)).persisted =
        some (.obj (mergeRecord cf tf w.mergeTime))
    ∧ List.lookup "referral" (mergeRecord cf tf w.mergeTime) =
        some (.obj
          [ ("assignedDepartment", jsonOrNull (List.lookup "department" tf)),
            ("aiPrecautions", jsonOrNull (List.lookup "precautions" tf)) ])
    ∧ (List.lookup "department" tf = none →
        jsonOrNull (List.lookup "department" tf) = Json.null)
    ∧ (List.lookup "precautions" tf = none →
        jsonOrNull (List.lookup "precautions" tf) = Json.null) := by
  refine ⟨?_, ?_, ?_, ?_, ?_⟩
  · simp [process_data, hu, hf, hclean, htri]
  · simp [process_data, hu, hf, hclean, htri]
  · unfold mergeRecord
    rw [lookup_dictSet_ne _ _ _ _ (by decide), lookup_dictSet_self]
  · intro h
    rw [h]
    rfl
  · intro h
    rw [h]
    rfl

/-- Witness for C10: the triage text parses to the empty object; the run
still answers 200 and persists a referral block with two null values. -/
theorem merge_total_missing_triage_keys_witness :
    (process_data (successWorld (.obj [])) sampleRequest).response.status = 200
    ∧ List.lookup "referral" (mergeRecord
          [("name", .str "Alice"), ("symptoms", .str "Chest pain")] []
          ⟨2025, 10, 12, 9, 30, 0, 123456⟩) =
        some (.obj
          [ ("assignedDepartment", jsonOrNull (List.lookup "department" ([] : List (String × Json)))),
            ("aiPrecautions", jsonOrNull (List.lookup "precautions" ([] : List (String × Json)))) ]) :=
  ⟨(merge_total_missing_triage_keys (successWorld (.obj []))
      [("userData", .obj [("symptoms", .str "chest pain")])]
      [("name", .str "Alice"), ("symptoms", .str "Chest pain")] []
      (.obj [("symptoms", .str "chest pain")]) rfl rfl rfl rfl).1,
   (merge_total_missing_triage_keys (successWorld (.obj []))
      [("userData", .obj [("symptoms", .str "chest pain")])]
      [("name", .str "Alice"), ("symptoms", .str "Chest pain")] []
      (.obj [("symptoms", .str "chest pain")]) rfl rfl rfl rfl).2.2.1⟩

/-- The key list of a JSON object. -/
def objKeys : Json → List String
  | .obj fs => fs.map Prod.fst
  | _ => []

/-- Whether a JSON object carries a key. -/
def objHasKey (j : Json) (k : String) : Bool :=
  match j with
  | .obj fs => (List.lookup k fs).isSome
  | _ => false

/-- Counterexample to C4 as stated: both AI calls succeed, the triage text
parses to an object with a third field `extra`, and the 200 body carries
that field — the response is not limited to the two triage fields. -/
theorem success_response_echoes_extra_field :
    (process_data (successWorld (.obj [("department", .str "Cardiology"),
        ("precautions", .str "Rest"), ("extra", .str "y")])) sampleRequest).response.status = 200
    ∧ objHasKey (process_data (successWorld (.obj [("department", .str "Cardiology"),
        ("precautions", .str "Rest"), ("extra", .str "y")])) sampleRequest).response.body
        "extra" = true :=
  ⟨rfl, rfl⟩

/-- C4 as amended: on a run where both AI calls succeed the 200 body is
exactly the triage stage's parsed object — so it is independent of the
cleaning output and of the merged record — and when that object has exactly
the keys `department` and `precautions` the body contains exactly those two
fields and no others. -/
theorem success_response_is_triage_result (w : World)
    (fields cf tf : List (String × Json)) (raw : Json)
    (hu : List.lookup "userData" fields = some raw)
    (hf : falsyJson raw = false)
    (hclean : (make_gemini_api_call w.apiKey w.loads w.cleanNet
        (call_data_cleaning_ai_payload raw)).result = .ok (.obj cf))
    (htri : (make_gemini_api_call w.apiKey w.loads w.triageNet
        (call_triage_ai_payload cf)).result = .ok (.obj tf)) :
    (process_data w (.obj fields)).response.status = 200
    ∧ (process_data w (.obj fields)).response.body = .obj tf
    ∧ (tf.map Prod.fst = ["department", "precautions"] →
        objKeys (process_data w (.obj fields)).response.body =
          ["department", "precautions"]) := by
  refine ⟨?_, ?_, ?_⟩
  · simp [process_data, hu, hf, hclean, htri]
  · simp [process_data, hu, hf, hclean, htri]
  · intro h
    simp [process_data, hu, hf, hclean, htri, objKeys, h]

/-- Witness for C4's amended theorem: the two-field triage object comes back
verbatim as the 200 body. -/
theorem success_response_is_triage_result_witness :
    (process_data (successWorld sampleTriage) sampleRequest).response.status = 200
    ∧ (process_data (successWorld sampleTriage) sampleRequest).response.body =
        .obj [("department", .str "Cardiology"), ("precautions", .str "Rest")]
    ∧ objKeys (process_data (successWorld sampleTriage) sampleRequest).response.body =
        ["department", "precautions"] :=
  ⟨(success_response_is_triage_result (successWorld sampleTriage)
      [("userData", .obj [("symptoms", .str "chest pain")])]
      [("name", .str "Alice"), ("symptoms", .str "Chest pain")]
      [("department", .str "Cardiology"), ("precautions", .str "Rest")]
      (.obj [("symptoms", .str "chest pain")]) rfl rfl rfl rfl).1,
   (success_response_is_triage_result (successWorld sampleTriage)
      [("userData", .obj [("symptoms", .str "chest pain")])]
      [("name", .str "Alice"), ("symptoms", .str "Chest pain")]
      [("department", .str "Cardiology"), ("precautions", .str "Rest")]
      (.obj [("symptoms", .str "chest pain")]) rfl rfl rfl rfl).2.1,
   (success_response_is_triage_result (successWorld sampleTriage)
      [("userData", .obj [("symptoms", .str "chest pain")])]
      [("name", .str "Alice"), ("symptoms", .str "Chest pain")]
      [("department", .str "Cardiology"), ("precautions", .str "Rest")]
      (.obj [("symptoms", .str "chest pain")]) rfl rfl rfl rfl).2.2 rfl⟩

/-- The parse step fails with the parse-failure `ValueError` exactly when
the candidate path hits a `KeyError` or `IndexError`, or the extracted text
is a string `json.loads` rejects; a `TypeError` along the path (or a
non-string text) escapes as an unexpected exception instead. -/
theorem parse_gemini_body_parse_error_iff (loads : String → Option Json) (bj : Json) :
    parse_gemini_body loads bj = .error (.valueError parse_error_msg)
    ↔ (extract_ai_text bj = .error .keyError
        ∨ extract_ai_text bj = .error .indexError
        ∨ ∃ t, extract_ai_text bj = .ok (.str t) ∧ loads t = none) := by
  unfold parse_gemini_body
  rcases hx : extract_ai_text bj with e | v
  · cases e <;> simp [hx]
  · cases v with
    | str t => cases hl : loads t <;> simp [hx, hl]
    | null => simp [hx]
    | bool b => simp [hx]
    | num n => simp [hx]
    | arr xs => simp [hx]
    | obj fs => simp [hx]

/-- C6: for a configured gateway and a success-status response, the call
fails with the parse-failure `ResponseFormatError` exactly when the
candidate field path is absent from the response object
(`KeyError`/`IndexError`) or the extracted text is a string that is not
valid JSON — and only then: an unparsable body raises a `RequestException`
(generic network `ConnectionError`) and a wrong-typed value along the path
an unexpected error, never the parse-failure message. -/
theorem gateway_parse_failure_iff (apiKey : Option String)
    (loads : String → Option Json) (status : Nat) (body : Option Json) (payload : Json)
    (hkey : keyConfigured apiKey = true)
    (hs : isHttpErrorStatus status = false) :
    (make_gemini_api_call apiKey loads (.ok status body) payload).result =
        .error (.valueError parse_error_msg)
    ↔ ∃ bj, body = some bj ∧
        (extract_ai_text bj = .error .keyError
          ∨ extract_ai_text bj = .error .indexError
          ∨ ∃ t, extract_ai_text bj = .ok (.str t) ∧ loads t = none) := by
  cases body with
  | none => simp [make_gemini_api_call, gateway_response, hkey, hs]
  | some bj =>
      simp [make_gemini_api_call, gateway_response, hkey, hs,
        parse_gemini_body_parse_error_iff]

/-- Witness for C6: a candidate text `json.loads` rejects. -/
theorem gateway_parse_failure_iff_witness :
    (make_gemini_api_call (some "key") (fun _ => none)
        (.ok 200 (some (envelope "BADTEXT"))) Json.null).result =
      .error (.valueError parse_error_msg) :=
  (gateway_parse_failure_iff (some "key") (fun _ => none) 200
      (some (envelope "BADTEXT")) Json.null rfl rfl).mpr
    ⟨envelope "BADTEXT", rfl, Or.inr (Or.inr ⟨"BADTEXT", rfl, rfl⟩)⟩

/-- Witness for C9: dropping `name` and `phone` leaves the payload
unchanged. -/
theorem triage_payload_only_clinical_fields_witness :
    call_triage_ai_payload
        [("name", .str "Alice"), ("symptoms", .str "Chest pain"), ("phone", .str "1")] =
      call_triage_ai_payload [("symptoms", .str "Chest pain")] :=
  triage_payload_only_clinical_fields
    [("name", .str "Alice"), ("symptoms", .str "Chest pain"), ("phone", .str "1")]
    [("symptoms", .str "Chest pain")] rfl rfl rfl

end Medicure
